import Mathlib

/-!
# Verification of the jaidegui job-supervision and template-persistence logic

Shallow embedding of `src/jaidegui/gui.py` (class `JaideGUI`).  Python 2
strings are byte strings; we model them as `List Nat` (one byte per
element).  Widget objects (`JaideEntry`, `JaideCheckbox`, ...) live in
`jgui_widgets.py`, which is part of the repository but not under `src/`;
following the spec ("TemplateRecord — a mapping from field name to string
value") they are modelled as plain string stores whose `get`/`set`/`str()`
are the identity and whose `deselect()` stores `"0"`.
-/

namespace Jaidegui

/-- A Python 2 `str` (a byte string), one `Nat` per byte. -/
abbrev Str := List Nat

/-- Byte string literal helper: ASCII bytes of a Lean string literal. -/
def strB (s : String) : Str := s.toList.map Char.toNat

/-- The bytes Python's `str.rstrip()` removes: space, \t, \n, \r, \v, \f. -/
def isSpaceByte (b : Nat) : Bool :=
  b = 32 || b = 9 || b = 10 || b = 13 || b = 11 || b = 12

/-- Python `s.rstrip()`: drop trailing whitespace bytes. -/
def rstrip (s : Str) : Str := (s.reverse.dropWhile isSpaceByte).reverse

/-- Python `s.lstrip()`: drop leading whitespace bytes. -/
def lstrip (s : Str) : Str := s.dropWhile isSpaceByte

/-- Python `s.strip()`: drop whitespace on both sides. -/
def pyStrip (s : Str) : Str := lstrip (rstrip s)

/-- Prepend a byte onto the first piece of a split result (helper shared by
`splitTilde` and `readlines`). -/
def consHead (c : Nat) : List Str → List Str
  | [] => [[c]]
  | h :: t => (c :: h) :: t

/-- Python `line.split(':~:')`: split on every non-overlapping occurrence of
the 3-byte separator `":~:" = [58, 126, 58]`, scanning left to right. -/
def splitTilde : Str → List Str
  | [] => [[]]
  | 58 :: 126 :: 58 :: rest => [] :: splitTilde rest
  | c :: rest => consHead c (splitTilde rest)

/-- Python `file.readlines()`: split the content after every newline byte,
keeping the newline at the end of each piece. -/
def readlines : Str → List Str
  | [] => []
  | c :: rest =>
    if c = 10 then [10] :: readlines rest
    else consHead c (readlines rest)

/-! ## Base64 (Python `base64.b64encode` / `b64decode` on byte strings) -/

/-- ASCII byte of a base64 sextet (standard alphabet `A-Z a-z 0-9 + /`). -/
def b64char (n : Nat) : Nat :=
  if n < 26 then 65 + n
  else if n < 52 then 97 + (n - 26)
  else if n < 62 then 48 + (n - 52)
  else if n = 62 then 43
  else 47

/-- Inverse of `b64char`: sextet value of an alphabet byte. -/
def b64dchar (c : Nat) : Option Nat :=
  if 65 ≤ c ∧ c ≤ 90 then some (c - 65)
  else if 97 ≤ c ∧ c ≤ 122 then some (26 + (c - 97))
  else if 48 ≤ c ∧ c ≤ 57 then some (52 + (c - 48))
  else if c = 43 then some 62
  else if c = 47 then some 63
  else none

/-- `base64.b64encode`: 3 input bytes become 4 alphabet bytes; a 1- or
2-byte tail is padded with `'='` (byte 61). -/
def b64encode : Str → Str
  | [] => []
  | [a] => [b64char (a / 4), b64char (a % 4 * 16), 61, 61]
  | [a, b] => [b64char (a / 4), b64char (a % 4 * 16 + b / 16),
               b64char (b % 16 * 4), 61]
  | a :: b :: c :: rest =>
    b64char (a / 4) :: b64char (a % 4 * 16 + b / 16) ::
    b64char (b % 16 * 4 + c / 64) :: b64char (c % 64) :: b64encode rest

/-- `base64.b64decode` on well-formed input (groups of four alphabet bytes,
`'='`-padded); `none` models the exception raised on malformed input. -/
def b64decode : Str → Option Str
  | [] => some []
  | w :: x :: y :: z :: rest =>
    match b64dchar w, b64dchar x with
    | some s1, some s2 =>
      if z = 61 then
        if y = 61 then
          if rest = [] then some [s1 * 4 + s2 / 16] else none
        else
          match b64dchar y with
          | some s3 =>
            if rest = [] then
              some [s1 * 4 + s2 / 16, s2 % 16 * 16 + s3 / 4]
            else none
          | none => none
      else
        match b64dchar y, b64dchar z with
        | some s3, some s4 =>
          (b64decode rest).map fun tail =>
            (s1 * 4 + s2 / 16) :: (s2 % 16 * 16 + s3 / 4) ::
            (s3 % 4 * 64 + s4) :: tail
        | _, _ => none
    | _, _ => none
  | _ => none

/-! ## Output rendering (`JaideGUI.write_to_output_area`, gui.py 701-713) -/

/-- A Python value handed to `write_to_output_area`.  The
`isinstance(output, basestring)` guard admits two cases: a `str` (a byte
string) and a `unicode` (carried here as its rendered character/byte
sequence); anything else is `nonStr`. -/
inductive PyVal where
  | str (s : Str)
  | uni (s : Str)
  | nonStr
deriving DecidableEq, Repr

/-- `output[-1:]`, the one-character slice Python compares against `"\n"`
(the empty string when `output` is empty). -/
def lastSlice (s : Str) : Str := s.drop (s.length - 1)

/-- `JaideGUI.write_to_output_area`: if the argument is a `basestring`,
append it to the output area, first adding a trailing `"\n"` when
`output[-1:] is not "\n"`.  For a byte `str`, CPython 2 shares one-byte
`str` objects, so the identity test coincides with inequality of the
slice and `"\n"`.  For a `unicode`, the slice is a `unicode` object and
the literal a `str`, so the cross-type `is not` is always true and a
newline is appended unconditionally (the `+=` then yields a `unicode`,
rendered like any text).  Non-`basestring` arguments are ignored. -/
def write_to_output_area (output : PyVal) (area : Str) : Str :=
  match output with
  | .nonStr => area
  | .str s => area ++ (if lastSlice s ≠ [10] then s ++ [10] else s)
  | .uni s => area ++ (s ++ [10])

/-! ## The polling supervisor (`JaideGUI.go` / `JaideGUI.get_output`) -/

/-- The completion notice written by `get_output` (gui.py 595). -/
def completionMsg : Str := strB "****** Jaide Command Completed ******\n"

/-- The state shared between the Tk mainloop and the polling logic of
`get_output`: the `stdout_queue` FIFO (head = oldest chunk), the worker
thread's liveness, the text already in `output_area`, the four button
states (`true` = `"normal"`), and whether `self.after(100, get_output)`
re-scheduled a tick. -/
structure SupState where
  stdout_queue : List PyVal
  threadAlive : Bool
  output_area : Str
  goEnabled : Bool
  clearEnabled : Bool
  stopEnabled : Bool
  saveEnabled : Bool
  tickScheduled : Bool
deriving DecidableEq, Repr

/-- Render a list of chunks into the output area, oldest first (the
`while not self.stdout_queue.empty()` drain loop of gui.py 589-590). -/
def drainAll : List PyVal → Str → Str
  | [], area => area
  | c :: rest, area => drainAll rest (write_to_output_area c area)

/-- `JaideGUI.get_output` (gui.py 582-599): one `get_nowait` (ignoring
`Queue.Empty`), then the liveness check; if the worker is dead, drain the
whole queue, re-enable Run/Clear/Save, disable Stop, write the completion
notice and stop polling; otherwise re-schedule the 100 ms tick. -/
def get_output (s : SupState) : SupState :=
  let s1 :=
    match s.stdout_queue with
    | [] => s
    | c :: rest =>
      { s with stdout_queue := rest,
               output_area := write_to_output_area c s.output_area }
  if s1.threadAlive then
    { s1 with tickScheduled := true }
  else
    { s1 with stdout_queue := [],
              output_area := write_to_output_area (.str completionMsg)
                (drainAll s1.stdout_queue s1.output_area),
              goEnabled := true, clearEnabled := true,
              stopEnabled := false, saveEnabled := true,
              tickScheduled := false }

/-- A supervisor state in which the worker has finished with two chunks
still queued (used to exercise the completion path). -/
def deadState : SupState :=
  { stdout_queue := [.str (strB "host1 output"), .str (strB "host2 output\n")],
    threadAlive := false, output_area := strB "earlier\n",
    goEnabled := false, clearEnabled := false,
    stopEnabled := true, saveEnabled := false, tickScheduled := false }

/-- A supervisor state in which the worker is still alive and two chunks
are queued (used to exercise the per-tick path). -/
def aliveState : SupState :=
  { stdout_queue := [.str (strB "chunk one\n"), .str (strB "chunk two\n")],
    threadAlive := true, output_area := [],
    goEnabled := false, clearEnabled := false,
    stopEnabled := true, saveEnabled := false, tickScheduled := false }

/-! ## Template persistence (`save_template` / `open_template`)

`template_opts` (gui.py 445-468) maps 22 field names to widget objects;
widgets are modelled as string stores (see the file header).  A record
therefore holds 22 byte strings, one per `template_opts` key (`Option`
is renamed `OptionVal` to avoid clashing with Lean's `Option`). -/

/-- Modelled from the spec: the widget classes (`JaideEntry`,
`JaideCheckbox`, `JaideRadiobutton` of `jgui_widgets.py`) are repository
code not under `src/`; per spec §3 ("TemplateRecord — a mapping from
field name to string value") each widget is a plain string store whose
`get`/`set`/`str()` are the identity and whose `deselect()` stores
`"0"`. -/
structure TemplateRecord where
  IP : Str
  Timeout : Str
  Username : Str
  Password : Str
  WriteToFileBool : Str
  WriteToFileLoc : Str
  SingleOrMultipleFiles : Str
  OptionVal : Str
  FirstArgument : Str
  SCPDest : Str
  SCPDirection : Str
  CommitCheck : Str
  CommitConfirmed : Str
  CommitConfirmedMin : Str
  CommitBlank : Str
  CommitAt : Str
  CommitAtTime : Str
  CommitComment : Str
  CommitCommentValue : Str
  CommitSynch : Str
  Format : Str
  DiffMode : Str
deriving DecidableEq, Repr

/-- The separator `":~:"` as bytes. -/
def sepB : Str := [58, 126, 58]

/-- One non-Password line written by `save_template` (gui.py 763):
`key + ":~:" + str(value.get()) + "\n"`. -/
def saveLine (key v : Str) : Str := key ++ sepB ++ v ++ [10]

/-- The 22 `(key, written value)` pairs of `template_opts`
(gui.py 445-468): the `Password` value goes through `base64.b64encode`,
every other value is written as `str(value.get())`. -/
def templateKV (r : TemplateRecord) : List (Str × Str) :=
  [(strB "IP", r.IP),
   (strB "Timeout", r.Timeout),
   (strB "Username", r.Username),
   (strB "Password", b64encode r.Password),
   (strB "WriteToFileBool", r.WriteToFileBool),
   (strB "WriteToFileLoc", r.WriteToFileLoc),
   (strB "SingleOrMultipleFiles", r.SingleOrMultipleFiles),
   (strB "Option", r.OptionVal),
   (strB "FirstArgument", r.FirstArgument),
   (strB "SCPDest", r.SCPDest),
   (strB "SCPDirection", r.SCPDirection),
   (strB "CommitCheck", r.CommitCheck),
   (strB "CommitConfirmed", r.CommitConfirmed),
   (strB "CommitConfirmedMin", r.CommitConfirmedMin),
   (strB "CommitBlank", r.CommitBlank),
   (strB "CommitAt", r.CommitAt),
   (strB "CommitAtTime", r.CommitAtTime),
   (strB "CommitComment", r.CommitComment),
   (strB "CommitCommentValue", r.CommitCommentValue),
   (strB "CommitSynch", r.CommitSynch),
   (strB "Format", r.Format),
   (strB "DiffMode", r.DiffMode)]

/-- `JaideGUI.save_template`'s successful body (gui.py 756-764): one
`write` per `template_opts` entry, each of the form
`key + ":~:" + value + "\n"`.  (`dict.iteritems()` fixes some arbitrary
order; the dict-literal order is used here — `open_template` is
insensitive to line order since the 22 keys are distinct.) -/
def save_template (r : TemplateRecord) : Str :=
  ((templateKV r).map fun kv => saveLine kv.1 kv.2).flatten

/-- The 20 `template_opts` keys handled by the generic
`self.template_opts[line[0]].set(line[1].rstrip())` branch (all keys
except `SingleOrMultipleFiles` and `Password`, which `open_template`
special-cases first). -/
def plainKeys : List Str :=
  [strB "IP", strB "Timeout", strB "Username", strB "WriteToFileBool",
   strB "WriteToFileLoc", strB "Option", strB "FirstArgument",
   strB "SCPDest", strB "SCPDirection", strB "CommitCheck",
   strB "CommitConfirmed", strB "CommitConfirmedMin", strB "CommitBlank",
   strB "CommitAt", strB "CommitAtTime", strB "CommitComment",
   strB "CommitCommentValue", strB "CommitSynch", strB "Format",
   strB "DiffMode"]

/-- Store a value under one of the 20 plain keys. -/
def setPlain (r : TemplateRecord) (key v : Str) : TemplateRecord :=
  if key = strB "IP" then { r with IP := v }
  else if key = strB "Timeout" then { r with Timeout := v }
  else if key = strB "Username" then { r with Username := v }
  else if key = strB "WriteToFileBool" then { r with WriteToFileBool := v }
  else if key = strB "WriteToFileLoc" then { r with WriteToFileLoc := v }
  else if key = strB "Option" then { r with OptionVal := v }
  else if key = strB "FirstArgument" then { r with FirstArgument := v }
  else if key = strB "SCPDest" then { r with SCPDest := v }
  else if key = strB "SCPDirection" then { r with SCPDirection := v }
  else if key = strB "CommitCheck" then { r with CommitCheck := v }
  else if key = strB "CommitConfirmed" then { r with CommitConfirmed := v }
  else if key = strB "CommitConfirmedMin" then
    { r with CommitConfirmedMin := v }
  else if key = strB "CommitBlank" then { r with CommitBlank := v }
  else if key = strB "CommitAt" then { r with CommitAt := v }
  else if key = strB "CommitAtTime" then { r with CommitAtTime := v }
  else if key = strB "CommitComment" then { r with CommitComment := v }
  else if key = strB "CommitCommentValue" then
    { r with CommitCommentValue := v }
  else if key = strB "CommitSynch" then { r with CommitSynch := v }
  else if key = strB "Format" then { r with Format := v }
  else if key = strB "DiffMode" then { r with DiffMode := v }
  else r

/-- The effect one template line asks for, as parsed by the loop body of
`open_template` (gui.py 811-819). -/
inductive FieldUpd where
  | somf (v : Str)
  | pw (v : Str)
  | plain (key v : Str)
deriving DecidableEq, Repr

/-- Parse one line of the template file, mirroring the loop body of
`open_template`: `line.split(':~:')`, the `SingleOrMultipleFiles` and
`Password` special cases, then the generic dict lookup.  `none` models
the exception cases: `KeyError` for an unrecognized field name (the dict
lookup happens before `line[1]` is evaluated), `IndexError` when the line
has no separator, and the `b64decode` failure. -/
def parseLine (l : Str) : Option FieldUpd :=
  let parts := splitTilde l
  let key := parts.headI
  if key = strB "SingleOrMultipleFiles" then
    (parts[1]?).map fun w => .somf (rstrip w)
  else if key = strB "Password" then
    (parts[1]?).bind fun w => (b64decode (rstrip w)).map .pw
  else if key ∈ plainKeys then
    (parts[1]?).map fun w => .plain key (rstrip w)
  else
    none

/-- Apply a parsed update to the record. -/
def applyUpd (r : TemplateRecord) : FieldUpd → TemplateRecord
  | .somf v => { r with SingleOrMultipleFiles := v }
  | .pw v => { r with Password := v }
  | .plain key v => setPlain r key v

/-- The `for line in input_file.readlines()` loop: apply lines in order;
on the first line whose processing raises, stop and return the record as
mutated so far (`Except.error`) — the surrounding `try` aborts the loop. -/
def runLines (r : TemplateRecord) : List Str → Except TemplateRecord TemplateRecord
  | [] => .ok r
  | l :: rest =>
    match parseLine l with
    | none => .error r
    | some u => runLines (applyUpd r u) rest

/-- The nine keys of `help_conversion` (gui.py 98-122); `opt_select` ends
with `help_conversion[opt]`, which raises `KeyError` for any other value. -/
def helpKeys : List Str :=
  [strB "Show | Compare", strB "Device Info", strB "Diff Config",
   strB "Health Check", strB "Interface Errors",
   strB "Operational Command(s)", strB "SCP Files",
   strB "Set Command(s)", strB "Shell Command(s)"]

/-- `deselect()` on the six commit checkboxes (gui.py 875-880). -/
def deselectCommit (r : TemplateRecord) : TemplateRecord :=
  { r with CommitCheck := strB "0", CommitConfirmed := strB "0",
           CommitBlank := strB "0", CommitSynch := strB "0",
           CommitAt := strB "0", CommitComment := strB "0" }

/-- The record-visible effect of `opt_select(self.option_value.get())`
(gui.py 842-925): deselect the commit checkboxes unless the option is
`"Set Command(s)"`, remap `"------"` to `"Device Info"`, and finally look
the original option up in `help_conversion` — the `Bool` is `false` when
that lookup raises `KeyError` (grid calls do not touch the record). -/
def opt_select_record (r : TemplateRecord) : TemplateRecord × Bool :=
  let opt := r.OptionVal
  let r1 := if opt ≠ strB "Set Command(s)" then deselectCommit r else r
  let r2 := if opt = strB "------" then { r1 with OptionVal := strB "Device Info" }
            else r1
  (r2, decide (opt ∈ helpKeys))

/-- A message written to the output surface on a failure. -/
inductive Report where
  | loadIOError
  | templateParseError
deriving DecidableEq, Repr

/-- What a template load leaves behind: the record and the error reports
written to the output area. -/
structure LoadResult where
  record : TemplateRecord
  reports : List Report
deriving DecidableEq, Repr

/-- The `else` branch of `JaideGUI.open_template` (gui.py 807-828): read
the lines, apply each; any exception (first malformed line, or a
`KeyError` out of the final `opt_select`) is caught by the one `except`
and reported once; `check_wtf` only re-grids widgets. -/
def open_template (r : TemplateRecord) (content : Str) : LoadResult :=
  match runLines r (readlines content) with
  | .error r1 => ⟨r1, [.templateParseError]⟩
  | .ok r1 =>
    let p := opt_select_record r1
    if p.2 then ⟨p.1, []⟩ else ⟨p.1, [.templateParseError]⟩

/-- `JaideGUI.open_template` including the `open(filepath, "rb")` attempt
(gui.py 801-806): `none` stands for a file that is missing or unreadable
(`IOError`), in which case the failure is reported and nothing else runs. -/
def open_template_io (r : TemplateRecord) (file : Option Str) : LoadResult :=
  match file with
  | none => ⟨r, [.loadIOError]⟩
  | some content => open_template r content

/-- A value round-trips through one template line when it contains no
newline byte, no occurrence of the separator (expressed through
`splitTilde`), and no trailing whitespace (`rstrip` is the identity). -/
def cleanVal (v : Str) : Prop :=
  10 ∉ v ∧ splitTilde v = [v] ∧ rstrip v = v

instance (v : Str) : Decidable (cleanVal v) := by
  unfold cleanVal
  infer_instance

/-- All 21 non-`Password` values of a record are round-trip clean
(the `Password` value is written base64-encoded, which is always clean). -/
def cleanRecord (r : TemplateRecord) : Prop :=
  cleanVal r.IP ∧ cleanVal r.Timeout ∧ cleanVal r.Username ∧
  cleanVal r.WriteToFileBool ∧ cleanVal r.WriteToFileLoc ∧
  cleanVal r.SingleOrMultipleFiles ∧ cleanVal r.OptionVal ∧
  cleanVal r.FirstArgument ∧ cleanVal r.SCPDest ∧
  cleanVal r.SCPDirection ∧ cleanVal r.CommitCheck ∧
  cleanVal r.CommitConfirmed ∧ cleanVal r.CommitConfirmedMin ∧
  cleanVal r.CommitBlank ∧ cleanVal r.CommitAt ∧ cleanVal r.CommitAtTime ∧
  cleanVal r.CommitComment ∧ cleanVal r.CommitCommentValue ∧
  cleanVal r.CommitSynch ∧ cleanVal r.Format ∧ cleanVal r.DiffMode

instance (r : TemplateRecord) : Decidable (cleanRecord r) := by
  unfold cleanRecord
  infer_instance

/-- A record with every field empty (the state before any load). -/
def blankRecord : TemplateRecord :=
  ⟨[], [], [], [], [], [], [], [], [], [], [],
   [], [], [], [], [], [], [], [], [], [], []⟩

/-- A well-formed concrete record with secret `"sw0rdfish"`. -/
def exampleRecord : TemplateRecord :=
  { IP := strB "172.16.1.1", Timeout := strB "300",
    Username := strB "admin", Password := strB "sw0rdfish",
    WriteToFileBool := strB "0", WriteToFileLoc := [],
    SingleOrMultipleFiles := strB "s", OptionVal := strB "Device Info",
    FirstArgument := [], SCPDest := [], SCPDirection := strB "Push",
    CommitCheck := strB "0", CommitConfirmed := strB "0",
    CommitConfirmedMin := [], CommitBlank := strB "0",
    CommitAt := strB "0", CommitAtTime := [], CommitComment := strB "0",
    CommitCommentValue := [], CommitSynch := strB "0",
    Format := strB "0", DiffMode := strB "Set" }

/-- `exampleRecord` with a trailing space in the Username value. -/
def staleRecord : TemplateRecord :=
  { exampleRecord with Username := strB "bob " }

/-- One loop step of `open_template`, seen as a total function (identity
on a line whose processing raises). -/
def applyParsedLine (r : TemplateRecord) (l : Str) : TemplateRecord :=
  match parseLine l with
  | some u => applyUpd r u
  | none => r

/-- A template file whose FIRST line is malformed, followed by four
well-formed lines. -/
def badFirstContent : Str :=
  strB "BadLineWithoutSeparator\nIP:~:10.0.0.1\nUsername:~:admin\nTimeout:~:120\nSCPDest:~:out.txt\n"

/-- The same five lines with the malformed one LAST. -/
def badLastContent : Str :=
  strB "IP:~:10.0.0.1\nUsername:~:admin\nTimeout:~:120\nSCPDest:~:out.txt\nBadLineWithoutSeparator\n"

/-! ## Write failures in `save_template` (gui.py 750-764) -/

/-- A Python exception escaping a modelled call. -/
inductive PyErr where
  | unboundLocal
deriving DecidableEq, Repr

/-- What a `save_template` call leaves behind: the file content written,
or an error message written to the output area. -/
inductive SaveOutcome where
  | wrote (content : Str)
  | reported (msg : Str)
deriving DecidableEq, Repr

/-- The message built by the `except IOError` handler of `save_template`
(gui.py 753-755).  The handler's `%` interpolation reads the local
variable `output_file`; `none` models that local being unbound (the
`open` on line 751 raised before assigning it), which raises
`UnboundLocalError` out of the handler. -/
def saveErrorMessage (filetype : Str) (output_file : Option Str)
    (err : Str) : Except PyErr Str :=
  match output_file with
  | none => .error .unboundLocal
  | some f =>
    .ok (strB "Couldn't open file to save the " ++ filetype ++
      strB " file. Attempted location: " ++ f ++ strB "\nError:\n" ++ err)

/-- `JaideGUI.save_template` (gui.py 750-764): when `open` succeeds the
record is written out; when it raises `IOError` the handler formats its
message with the never-assigned local `output_file`. -/
def save_template_io (r : TemplateRecord) (filetype err : Str)
    (openOk : Bool) : Except PyErr SaveOutcome :=
  if openOk then .ok (.wrote (save_template r))
  else (saveErrorMessage filetype none err).map .reported

/-! ## Single-job exclusion

`JaideGUI.__init__` wires three ways to invoke `go`: the Run Script
button (gui.py 328-330), the `File > Run Script` menu entry and the
`Ctrl-R` binding (gui.py 158-160).  `go` disables only `go_button`
(gui.py 565); the menu entry and the key binding are never reconfigured. -/

/-- The pieces of Tk state that decide whether `go` can run again:
the four button states (`true` = `"normal"`), whether the menu entry and
key binding are installed, whether `input_validation()` passes on the
current field contents, how many `WorkerThread`s have been started, and
whether one is currently alive. -/
structure UIState where
  goButtonEnabled : Bool
  stopButtonEnabled : Bool
  clearButtonEnabled : Bool
  saveButtonEnabled : Bool
  runMenuInstalled : Bool
  ctrlRBound : Bool
  fieldsValid : Bool
  threadsStarted : Nat
  threadAlive : Bool
deriving DecidableEq, Repr

/-- The widget state right after `__init__` (gui.py 328-341, 158-160):
Run enabled, Stop/Clear/Save disabled, menu entry and `Ctrl-R` installed;
`fieldsValid` abstracts the operator's entries. -/
def initialUI (fieldsValid : Bool) : UIState :=
  { goButtonEnabled := true, stopButtonEnabled := false,
    clearButtonEnabled := false, saveButtonEnabled := false,
    runMenuInstalled := true, ctrlRBound := true,
    fieldsValid := fieldsValid, threadsStarted := 0, threadAlive := false }

/-- `JaideGUI.go` (gui.py 474-569): if validation passes, start a
`WorkerThread` and flip the button states; `go` never touches the menu
entry or the key binding. -/
def go (s : UIState) : UIState :=
  if s.fieldsValid then
    { s with threadsStarted := s.threadsStarted + 1, threadAlive := true,
             goButtonEnabled := false, clearButtonEnabled := false,
             stopButtonEnabled := true, saveButtonEnabled := false }
  else s

/-- The three operator actions that invoke `go`. -/
inductive UIEvent where
  | goButtonPress
  | ctrlR
  | fileMenuRunScript
deriving DecidableEq, Repr

/-- Tk event dispatch: a disabled button drops the click, but a menu
entry or `bind_all` binding fires as long as it is installed. -/
def dispatch (s : UIState) : UIEvent → UIState
  | .goButtonPress => if s.goButtonEnabled then go s else s
  | .ctrlR => if s.ctrlRBound then go s else s
  | .fileMenuRunScript => if s.runMenuInstalled then go s else s

/-! ## The commit-set argument bundle

`JaideGUI.go` builds the `"Set Command(s)"` entry of `args_translation`
(gui.py 516-518 and 528-534). -/

/-- Digit-string to number; `none` when any byte is not a digit or the
string is empty. -/
def digitsToNat : Str → Option Nat
  | [] => none
  | ds =>
    ds.foldl
      (fun acc d => acc.bind fun n =>
        if 48 ≤ d ∧ d ≤ 57 then some (n * 10 + (d - 48)) else none)
      (some 0)

/-- Python `int(s)` on a decimal string: surrounding whitespace is
allowed, then an optional sign and at least one digit; `none` models the
`ValueError` on anything else. -/
def pyInt (s : Str) : Option Int :=
  match pyStrip s with
  | 43 :: ds => (digitsToNat ds).map fun n => (n : Int)
  | 45 :: ds => (digitsToNat ds).map fun n => -(n : Int)
  | ds => (digitsToNat ds).map fun n => (n : Int)

/-- One argument slot of an argument bundle. -/
inductive PyArg where
  | s (v : Str)
  | b (v : Bool)
  | i (n : Int)
  | pyNone
deriving DecidableEq, Repr

/-- The widget values `go` reads when the chosen option is
`"Set Command(s)"` (entries as byte strings, checkboxes as their
selected state; `JaideEntry`/`JaideCheckbox` of `jgui_widgets.py` are
modelled from the spec as plain value stores). -/
structure SetCommandInputs where
  option_entry : Str
  commit_check : Bool
  commit_synch : Bool
  commit_comment : Bool
  commit_comment_entry : Str
  commit_confirmed : Bool
  commit_confirmed_min_entry : Str
  commit_at : Bool
  commit_at_entry : Str
  commit_blank : Bool
deriving DecidableEq, Repr

/-- The `"Set Command(s)"` argument bundle built by `go` (gui.py
516-518, 528-534): `at_time`, `confirmed` and `comment` are `None`
unless their checkboxes are checked; a checked Confirmed box multiplies
the minutes entry (parsed with `int`) by 60.  `none` models the
`ValueError` `int` would raise (unreachable after `input_validation`). -/
def set_command_args (g : SetCommandInputs) : Option (List PyArg) :=
  let at_time := if g.commit_at then PyArg.s g.commit_at_entry
                 else PyArg.pyNone
  let comment := if g.commit_comment then PyArg.s g.commit_comment_entry
                 else PyArg.pyNone
  let confirmed? : Option PyArg :=
    if g.commit_confirmed then
      (pyInt g.commit_confirmed_min_entry).map fun n => PyArg.i (n * 60)
    else some PyArg.pyNone
  confirmed?.map fun confirmed =>
    [PyArg.s (pyStrip g.option_entry), PyArg.b g.commit_check,
     PyArg.b g.commit_synch, comment, confirmed, at_time,
     PyArg.b g.commit_blank]

/-! ## Commit checkbox state

`JaideGUI.commit_option_update` (gui.py 983-1019) is the command callback
of the six commit checkboxes; Tk toggles the variable first, then runs
the callback. -/

/-- The six commit checkbox variables (`JaideCheckbox` of
`jgui_widgets.py` is not under `src/`; modelled from the spec as a
boolean selected-state whose `get` reads it and `deselect` clears it). -/
structure CommitBoxes where
  commit_check_button : Bool
  commit_confirmed_button : Bool
  commit_blank : Bool
  commit_synch : Bool
  commit_at : Bool
  commit_comment : Bool
deriving DecidableEq, Repr

/-- The `check_type` string passed by each checkbox's lambda. -/
inductive CheckType where
  | blank
  | check
  | confirmed
  | at_
  | comment
  | synchronize
deriving DecidableEq, Repr

/-- `JaideGUI.commit_option_update` (gui.py 999-1019): the
`if/elif` chain keyed on `check_type` and the clicked box's new value,
deselecting the boxes the source deselects in each branch. -/
def commit_option_update (check_type : CheckType) (s : CommitBoxes) :
    CommitBoxes :=
  if check_type = .blank ∧ s.commit_blank then
    { s with commit_confirmed_button := false,
             commit_check_button := false }
  else if check_type = .check ∧ s.commit_check_button then
    { s with commit_confirmed_button := false, commit_blank := false,
             commit_at := false, commit_synch := false,
             commit_comment := false }
  else if check_type = .confirmed ∧ s.commit_confirmed_button then
    { s with commit_check_button := false, commit_blank := false,
             commit_at := false }
  else if check_type = .at_ ∧ s.commit_at then
    { s with commit_confirmed_button := false, commit_blank := false,
             commit_check_button := false }
  else if check_type = .comment ∧ s.commit_comment then
    { s with commit_check_button := false }
  else if check_type = .synchronize ∧ s.commit_synch then
    { s with commit_check_button := false }
  else s

/-- The toggle Tk performs on the clicked checkbox's variable before the
command callback runs. -/
def toggleBox (t : CheckType) (s : CommitBoxes) : CommitBoxes :=
  match t with
  | .blank => { s with commit_blank := !s.commit_blank }
  | .check => { s with commit_check_button := !s.commit_check_button }
  | .confirmed =>
    { s with commit_confirmed_button := !s.commit_confirmed_button }
  | .at_ => { s with commit_at := !s.commit_at }
  | .comment => { s with commit_comment := !s.commit_comment }
  | .synchronize => { s with commit_synch := !s.commit_synch }

/-- One operator click on a commit checkbox: toggle, then callback. -/
def clickCommit (t : CheckType) (s : CommitBoxes) : CommitBoxes :=
  commit_option_update t (toggleBox t s)

/-- Check Only is never selected together with any of the other five. -/
def checkOnlyExclusion (s : CommitBoxes) : Prop :=
  s.commit_check_button = true →
    s.commit_blank = false ∧ s.commit_confirmed_button = false ∧
    s.commit_at = false ∧ s.commit_synch = false ∧
    s.commit_comment = false

instance (s : CommitBoxes) : Decidable (checkOnlyExclusion s) := by
  unfold checkOnlyExclusion
  infer_instance

/-! ### Base64 round-trip -/

theorem b64dchar_b64char : ∀ k < 64, b64dchar (b64char k) = some k := by decide

theorem b64char_ne_pad : ∀ k < 64, b64char k ≠ 61 := by decide

theorem b64decode_one (s1 s2 : Nat) (h1 : s1 < 64) (h2 : s2 < 64) :
    b64decode [b64char s1, b64char s2, 61, 61] = some [s1 * 4 + s2 / 16] := by
  simp only [b64decode, b64dchar_b64char _ h1, b64dchar_b64char _ h2, if_pos]

theorem b64decode_two (s1 s2 s3 : Nat)
    (h1 : s1 < 64) (h2 : s2 < 64) (h3 : s3 < 64) :
    b64decode [b64char s1, b64char s2, b64char s3, 61] =
      some [s1 * 4 + s2 / 16, s2 % 16 * 16 + s3 / 4] := by
  simp only [b64decode, b64dchar_b64char _ h1, b64dchar_b64char _ h2,
    b64dchar_b64char _ h3, if_pos, if_neg (b64char_ne_pad _ h3)]

theorem b64decode_quad (s1 s2 s3 s4 : Nat) (rest : Str)
    (h1 : s1 < 64) (h2 : s2 < 64) (h3 : s3 < 64) (h4 : s4 < 64) :
    b64decode (b64char s1 :: b64char s2 :: b64char s3 :: b64char s4 :: rest) =
      (b64decode rest).map fun tail =>
        (s1 * 4 + s2 / 16) :: (s2 % 16 * 16 + s3 / 4) ::
        (s3 % 4 * 64 + s4) :: tail := by
  simp only [b64decode, b64dchar_b64char _ h1, b64dchar_b64char _ h2,
    b64dchar_b64char _ h3, b64dchar_b64char _ h4,
    if_neg (b64char_ne_pad _ h4)]

/-- Decoding inverts encoding on byte strings (all bytes below 256). -/
theorem b64decode_b64encode :
    ∀ (n : Nat) (s : Str), s.length ≤ n → (∀ b ∈ s, b < 256) →
      b64decode (b64encode s) = some s := by
  intro n
  induction n with
  | zero =>
    intro s hlen _
    have : s = [] := List.eq_nil_of_length_eq_zero (Nat.le_zero.mp hlen)
    subst this; rfl
  | succ n ih =>
    intro s hlen hb
    match s with
    | [] => rfl
    | [a] =>
      have ha : a < 256 := hb a (by simp)
      rw [show b64encode [a] = [b64char (a / 4), b64char (a % 4 * 16), 61, 61]
            from rfl,
        b64decode_one _ _ (by omega) (by omega)]
      simp only [Option.some.injEq, List.cons.injEq, and_true]
      omega
    | [a, b] =>
      have ha : a < 256 := hb a (by simp)
      have hb' : b < 256 := hb b (by simp)
      rw [show b64encode [a, b] = [b64char (a / 4),
            b64char (a % 4 * 16 + b / 16), b64char (b % 16 * 4), 61] from rfl,
        b64decode_two _ _ _ (by omega) (by omega) (by omega)]
      simp only [Option.some.injEq, List.cons.injEq, and_true]
      omega
    | a :: b :: c :: rest =>
      have ha : a < 256 := hb a (by simp)
      have hb' : b < 256 := hb b (by simp)
      have hc : c < 256 := hb c (by simp)
      rw [show b64encode (a :: b :: c :: rest) =
            b64char (a / 4) :: b64char (a % 4 * 16 + b / 16) ::
            b64char (b % 16 * 4 + c / 64) :: b64char (c % 64) ::
            b64encode rest from rfl,
        b64decode_quad _ _ _ _ _ (by omega) (by omega) (by omega) (by omega),
        ih rest (by simp at hlen; omega)
          (fun x hx => hb x (by simp [hx]))]
      simp only [Option.map_some', Option.some.injEq, List.cons.injEq,
        and_true]
      omega

/-! ### Rendering and polling (C10, C1, C2) -/

theorem lastSlice_eq_getLast? (s : Str) :
    lastSlice s = (s.getLast?).elim [] (fun a => [a]) := by
  induction s with
  | nil => rfl
  | cons a t ih =>
    match t with
    | [] => rfl
    | b :: t' =>
      simp only [lastSlice, List.length_cons] at ih ⊢
      rw [show t'.length + 1 + 1 - 1 = t'.length + 1 by omega,
        List.drop_succ_cons, List.getLast?_cons_cons]
      rw [show t'.length + 1 - 1 = t'.length by omega] at ih
      exact ih

/-- C1: once `get_output` observes that the worker thread is no longer
alive, it drains every queued chunk in FIFO order into the output area,
then writes the completion notice after them, re-enables the Run, Clear
and Save buttons, disables Stop, and does not re-schedule a tick. -/
theorem get_output_completion_after_final_drain (s : SupState)
    (h : s.threadAlive = false) :
    (get_output s).stdout_queue = [] ∧
    (get_output s).output_area =
      write_to_output_area (.str completionMsg)
        (drainAll s.stdout_queue s.output_area) ∧
    (get_output s).goEnabled = true ∧
    (get_output s).clearEnabled = true ∧
    (get_output s).saveEnabled = true ∧
    (get_output s).stopEnabled = false ∧
    (get_output s).tickScheduled = false := by
  match hq : s.stdout_queue with
  | [] => simp [get_output, hq, h, drainAll]
  | c :: rest => simp [get_output, hq, h, drainAll]

theorem get_output_completion_after_final_drain_witness :
    deadState.threadAlive = false ∧
    ((get_output deadState).stdout_queue = [] ∧
     (get_output deadState).output_area =
       write_to_output_area (.str completionMsg)
         (drainAll deadState.stdout_queue deadState.output_area) ∧
     (get_output deadState).goEnabled = true ∧
     (get_output deadState).clearEnabled = true ∧
     (get_output deadState).saveEnabled = true ∧
     (get_output deadState).stopEnabled = false ∧
     (get_output deadState).tickScheduled = false) :=
  ⟨rfl, get_output_completion_after_final_drain deadState rfl⟩

/-- C2 counterexample: on a tick with the worker alive and two chunks
queued, `get_output` re-schedules the next tick with the second chunk
still enqueued — it does not drain everything currently available. -/
theorem get_output_tick_leaves_chunks_queued :
    (get_output aliveState).tickScheduled = true ∧
    (get_output aliveState).stdout_queue ≠ [] ∧
    (get_output aliveState).stdout_queue = [.str (strB "chunk two\n")] := by
  refine ⟨rfl, ?_, rfl⟩
  intro h
  simp [get_output, aliveState] at h

/-- C2 amended: on a tick with the worker still alive, `get_output`
renders at most one chunk — the oldest, when the queue is non-empty —
and then re-schedules the 100 ms tick. -/
theorem get_output_tick_renders_at_most_one (s : SupState)
    (h : s.threadAlive = true) :
    get_output s =
      match s.stdout_queue with
      | [] => { s with tickScheduled := true }
      | c :: rest =>
        { s with stdout_queue := rest,
                 output_area := write_to_output_area c s.output_area,
                 tickScheduled := true } := by
  match hq : s.stdout_queue with
  | [] => simp [get_output, hq, h]
  | c :: rest => simp [get_output, hq, h]

theorem get_output_tick_renders_at_most_one_witness :
    aliveState.threadAlive = true ∧
    get_output aliveState =
      { aliveState with
          stdout_queue := [.str (strB "chunk two\n")],
          output_area :=
            write_to_output_area (.str (strB "chunk one\n"))
              aliveState.output_area,
          tickScheduled := true } :=
  ⟨rfl, get_output_tick_renders_at_most_one aliveState rfl⟩

/-- C10 counterexample: a `unicode` argument already ending in `"\n"` is
a `basestring`, so it is rendered rather than ignored, and the cross-type
`output[-1:] is not "\n"` test is always true for it, so it is rendered
with an extra newline — not unchanged, refuting the claim as stated. -/
theorem write_to_output_area_unicode_counterexample :
    write_to_output_area (.uni (strB "done\n")) (strB "x") =
      strB "x" ++ strB "done\n\n" ∧
    strB "x" ++ strB "done\n\n" ≠ strB "x" ++ strB "done\n" := by decide

/-- C10 amended: `write_to_output_area` ignores non-`basestring`
arguments; a byte `str` already ending in `"\n"` is appended unchanged,
any other byte `str` gets one trailing `"\n"` appended; a `unicode`
always gets one trailing `"\n"` appended, even when it already ends in
one, because the `is not` identity test never holds between a `unicode`
slice and the `str` literal `"\n"`. -/
theorem write_to_output_area_render_discipline (v area : Str) :
    (write_to_output_area .nonStr area = area) ∧
    (v.getLast? = some 10 →
      write_to_output_area (.str v) area = area ++ v) ∧
    (v.getLast? ≠ some 10 →
      write_to_output_area (.str v) area = area ++ (v ++ [10])) ∧
    (write_to_output_area (.uni v) area = area ++ (v ++ [10])) := by
  refine ⟨rfl, fun h => ?_, fun h => ?_, rfl⟩
  · simp [write_to_output_area, lastSlice_eq_getLast?, h]
  · match hv : v.getLast? with
    | none => simp [write_to_output_area, lastSlice_eq_getLast?, hv]
    | some a =>
      have ha : a ≠ 10 := fun hc => h (hc ▸ hv)
      simp [write_to_output_area, lastSlice_eq_getLast?, hv, ha]

theorem write_to_output_area_render_discipline_witness :
    write_to_output_area (.str (strB "done\n")) (strB "x") =
      strB "x" ++ strB "done\n" ∧
    write_to_output_area (.str (strB "done")) (strB "x") =
      strB "x" ++ (strB "done" ++ [10]) ∧
    write_to_output_area (.uni (strB "done")) (strB "x") =
      strB "x" ++ (strB "done" ++ [10]) ∧
    write_to_output_area .nonStr (strB "x") = strB "x" :=
  ⟨(write_to_output_area_render_discipline (strB "done\n") (strB "x")).2.1
      (by decide),
   (write_to_output_area_render_discipline (strB "done") (strB "x")).2.2.1
      (by decide),
   (write_to_output_area_render_discipline (strB "done") (strB "x")).2.2.2,
   (write_to_output_area_render_discipline (strB "done") (strB "x")).1⟩

/-! ### Splitting and stripping lemmas -/

theorem take2_eq (rest : Str) (h : rest.take 2 = [126, 58]) :
    ∃ r, rest = 126 :: 58 :: r := by
  match rest with
  | [] => simp at h
  | [x] => simp at h
  | x :: y :: r =>
    simp at h
    exact ⟨r, by rw [h.1, h.2]⟩

theorem splitTilde_cons_58 (rest : Str) :
    splitTilde (58 :: 126 :: 58 :: rest) = [] :: splitTilde rest := rfl

theorem splitTilde_cons_notsep (c : Nat) (rest : Str)
    (h : ¬(c = 58 ∧ rest.take 2 = [126, 58])) :
    splitTilde (c :: rest) = consHead c (splitTilde rest) := by
  rw [splitTilde.eq_def]
  split
  · rename_i heq
    exact absurd heq (by simp)
  · rename_i x rest' heq
    injection heq with h1 h2
    subst h1
    exact absurd ⟨rfl, by rw [h2]; rfl⟩ h
  · rename_i x c' rest' hno heq
    injection heq with h1 h2
    rw [h1, h2]

/-- The one-step unfolding of `splitTilde` in Python's terms: a piece
boundary exactly when the next three bytes are `":~:"`. -/
theorem splitTilde_cons (c : Nat) (rest : Str) :
    splitTilde (c :: rest) =
      if c = 58 ∧ rest.take 2 = [126, 58] then
        [] :: splitTilde (rest.drop 2)
      else consHead c (splitTilde rest) := by
  by_cases h : c = 58 ∧ rest.take 2 = [126, 58]
  · obtain ⟨rfl, htake⟩ := h
    obtain ⟨r, rfl⟩ := take2_eq rest htake
    rw [if_pos ⟨rfl, htake⟩, splitTilde_cons_58]
    rfl
  · rw [if_neg h, splitTilde_cons_notsep c rest h]

theorem splitTilde_ne_nil (s : Str) : splitTilde s ≠ [] := by
  match s with
  | [] => simp [splitTilde]
  | c :: rest =>
    rw [splitTilde_cons]
    by_cases h : c = 58 ∧ rest.take 2 = [126, 58]
    · simp [h]
    · simp only [if_neg h]
      match splitTilde rest with
      | [] => simp [consHead]
      | h :: t => simp [consHead]

theorem splitTilde_append_sep (key w : Str) (h : 58 ∉ key) :
    splitTilde (key ++ sepB ++ w) = key :: splitTilde w := by
  induction key with
  | nil =>
    show splitTilde (58 :: 126 :: 58 :: w) = [] :: splitTilde w
    exact splitTilde_cons_58 w
  | cons c key ih =>
    have hc : c ≠ 58 := fun hc => h (hc ▸ List.mem_cons_self c key)
    have h' : 58 ∉ key := fun hk => h (List.mem_cons_of_mem c hk)
    show splitTilde (c :: (key ++ sepB ++ w)) = (c :: key) :: splitTilde w
    rw [splitTilde_cons]
    rw [if_neg (fun hand => hc hand.1), ih h', consHead]

theorem splitTilde_of_no58 (s : Str) (h : 58 ∉ s) : splitTilde s = [s] := by
  induction s with
  | nil => simp [splitTilde]
  | cons c rest ih =>
    have hc : c ≠ 58 := fun hc => h (hc ▸ List.mem_cons_self c rest)
    have h' : 58 ∉ rest := fun hk => h (List.mem_cons_of_mem c hk)
    rw [splitTilde_cons]
    rw [if_neg (fun hand => hc hand.1), ih h', consHead]

theorem splitTilde_append_newline (v : Str) (hsep : splitTilde v = [v]) :
    splitTilde (v ++ [10]) = [v ++ [10]] := by
  induction v with
  | nil => simp [splitTilde, consHead]
  | cons c v ih =>
    rw [splitTilde_cons] at hsep
    by_cases hcond : c = 58 ∧ v.take 2 = [126, 58]
    · rw [if_pos hcond] at hsep
      simp at hsep
    · rw [if_neg hcond] at hsep
      have hv : splitTilde v = [v] := by
        match hs : splitTilde v with
        | [] => exact absurd hs (splitTilde_ne_nil v)
        | h :: t =>
          rw [hs, consHead] at hsep
          simp at hsep
          rw [hsep.1, hsep.2]
      have hcond' : ¬(c = 58 ∧ (v ++ [10]).take 2 = [126, 58]) := by
        rintro ⟨hc, htake⟩
        refine hcond ⟨hc, ?_⟩
        match v with
        | [] => simp at htake
        | [x] => simp at htake
        | x :: y :: t => simpa using htake
      show splitTilde (c :: (v ++ [10])) = [c :: (v ++ [10])]
      rw [splitTilde_cons]
      rw [if_neg hcond', ih hv, consHead]

theorem readlines_append (front rest : Str) (h : 10 ∉ front) :
    readlines (front ++ 10 :: rest) = (front ++ [10]) :: readlines rest := by
  induction front with
  | nil => simp [readlines]
  | cons c front ih =>
    have hc : c ≠ 10 := fun hc => h (hc ▸ List.mem_cons_self c front)
    have h' : 10 ∉ front := fun hk => h (List.mem_cons_of_mem c hk)
    show readlines (c :: (front ++ 10 :: rest)) = _
    simp only [readlines]
    rw [if_neg hc, ih h', consHead]
    simp

theorem rstrip_append_newline (v : Str) : rstrip (v ++ [10]) = rstrip v := by
  simp [rstrip, isSpaceByte, List.dropWhile]

theorem rstrip_of_nonspace (s : Str)
    (h : ∀ b ∈ s, isSpaceByte b = false) : rstrip s = s := by
  match hs : s.reverse with
  | [] =>
    have : s = [] := by simpa using congrArg List.reverse hs
    simp [this, rstrip]
  | a :: t =>
    have ha : a ∈ s := by
      have : a ∈ s.reverse := hs ▸ List.mem_cons_self a t
      simpa using this
    rw [rstrip, hs, List.dropWhile_cons, h a ha]
    simp [← hs]

/-! ### Bytes produced by the base64 encoder -/

theorem b64char_byte_props : ∀ k < 64,
    isSpaceByte (b64char k) = false ∧ b64char k ≠ 58 ∧ b64char k ≠ 10 := by
  decide

theorem b64encode_byte_props :
    ∀ (n : Nat) (s : Str), s.length ≤ n → (∀ b ∈ s, b < 256) →
      ∀ b ∈ b64encode s, isSpaceByte b = false ∧ b ≠ 58 ∧ b ≠ 10 := by
  intro n
  induction n with
  | zero =>
    intro s hlen _
    have : s = [] := List.eq_nil_of_length_eq_zero (Nat.le_zero.mp hlen)
    subst this
    simp [b64encode]
  | succ n ih =>
    intro s hlen hb
    match s with
    | [] => simp [b64encode]
    | [a] =>
      have ha : a < 256 := hb a (by simp)
      intro b hbm
      simp only [b64encode, List.mem_cons, List.not_mem_nil, or_false] at hbm
      rcases hbm with rfl | rfl | rfl | rfl
      · exact b64char_byte_props _ (by omega)
      · exact b64char_byte_props _ (by omega)
      · decide
      · decide
    | [a, b'] =>
      have ha : a < 256 := hb a (by simp)
      have hb2 : b' < 256 := hb b' (by simp)
      intro b hbm
      simp only [b64encode, List.mem_cons, List.not_mem_nil, or_false] at hbm
      rcases hbm with rfl | rfl | rfl | rfl
      · exact b64char_byte_props _ (by omega)
      · exact b64char_byte_props _ (by omega)
      · exact b64char_byte_props _ (by omega)
      · decide
    | a :: b' :: c :: rest =>
      have ha : a < 256 := hb a (by simp)
      have hb2 : b' < 256 := hb b' (by simp)
      have hc : c < 256 := hb c (by simp)
      intro b hbm
      simp only [b64encode, List.mem_cons] at hbm
      rcases hbm with rfl | rfl | rfl | rfl | hbm
      · exact b64char_byte_props _ (by omega)
      · exact b64char_byte_props _ (by omega)
      · exact b64char_byte_props _ (by omega)
      · exact b64char_byte_props _ (by omega)
      · exact ih rest (by simp at hlen; omega)
          (fun x hx => hb x (by simp [hx])) b hbm

theorem b64encode_no58 (s : Str) (h : ∀ b ∈ s, b < 256) :
    58 ∉ b64encode s := fun hm =>
  (b64encode_byte_props s.length s (le_refl _) h 58 hm).2.1 rfl

theorem b64encode_no10 (s : Str) (h : ∀ b ∈ s, b < 256) :
    10 ∉ b64encode s := fun hm =>
  (b64encode_byte_props s.length s (le_refl _) h 10 hm).2.2 rfl

theorem rstrip_b64encode (s : Str) (h : ∀ b ∈ s, b < 256) :
    rstrip (b64encode s) = b64encode s :=
  rstrip_of_nonspace _ fun b hb =>
    (b64encode_byte_props s.length s (le_refl _) h b hb).1

/-! ### Parsing one saved line -/

theorem splitTilde_saveLine (key v : Str) (h58 : 58 ∉ key)
    (hsep : splitTilde v = [v]) :
    splitTilde (saveLine key v) = [key, v ++ [10]] := by
  rw [saveLine, List.append_assoc (key ++ sepB) v [10],
    splitTilde_append_sep key (v ++ [10]) h58,
    splitTilde_append_newline v hsep]

theorem parseLine_plain (key v : Str) (hk : key ∈ plainKeys)
    (h1 : key ≠ strB "SingleOrMultipleFiles") (h2 : key ≠ strB "Password")
    (h58 : 58 ∉ key) (hsep : splitTilde v = [v]) (hws : rstrip v = v) :
    parseLine (saveLine key v) = some (.plain key v) := by
  simp only [parseLine, splitTilde_saveLine key v h58 hsep, List.headI,
    if_neg h1, if_neg h2, if_pos hk]
  simp [rstrip_append_newline, hws]

theorem parseLine_somf (v : Str) (hsep : splitTilde v = [v])
    (hws : rstrip v = v) :
    parseLine (saveLine (strB "SingleOrMultipleFiles") v) =
      some (.somf v) := by
  simp only [parseLine,
    splitTilde_saveLine (strB "SingleOrMultipleFiles") v (by decide) hsep,
    List.headI, if_pos rfl]
  simp [rstrip_append_newline, hws]

theorem parseLine_password (pw : Str) (hpw : ∀ b ∈ pw, b < 256) :
    parseLine (saveLine (strB "Password") (b64encode pw)) =
      some (.pw pw) := by
  have hsep : splitTilde (b64encode pw) = [b64encode pw] :=
    splitTilde_of_no58 _ (b64encode_no58 pw hpw)
  simp only [parseLine,
    splitTilde_saveLine (strB "Password") (b64encode pw) (by decide) hsep,
    List.headI, if_neg (by decide : ¬(strB "Password" =
      strB "SingleOrMultipleFiles")), if_pos rfl]
  simp [rstrip_append_newline, rstrip_b64encode pw hpw,
    b64decode_b64encode pw.length pw (le_refl _) hpw]

/-! ### Reading back the saved file, line by line -/

theorem readlines_saveLine (key v rest : Str) (hk : 10 ∉ key) (hv : 10 ∉ v) :
    readlines (saveLine key v ++ rest) = saveLine key v :: readlines rest := by
  have h10 : 10 ∉ key ++ sepB ++ v := by
    intro hm
    rcases List.mem_append.mp hm with hm' | hm'
    · rcases List.mem_append.mp hm' with hm'' | hm''
      · exact hk hm''
      · simp [sepB] at hm''
    · exact hv hm'
  have hshape : saveLine key v ++ rest = (key ++ sepB ++ v) ++ 10 :: rest := by
    simp [saveLine]
  rw [hshape, readlines_append _ _ h10]
  simp [saveLine]

theorem readlines_saveLine_last (key v : Str) (hk : 10 ∉ key)
    (hv : 10 ∉ v) : readlines (saveLine key v) = [saveLine key v] := by
  have h := readlines_saveLine key v [] hk hv
  simpa [readlines] using h

theorem runLines_cons_some (r : TemplateRecord) (l : Str) (rest : List Str)
    (u : FieldUpd) (h : parseLine l = some u) :
    runLines r (l :: rest) = runLines (applyUpd r u) rest := by
  simp [runLines, h]

/-! ### How `setPlain` acts on each key -/

theorem setPlain_IP (r : TemplateRecord) (v : Str) :
    setPlain r (strB "IP") v = { r with IP := v } := rfl

theorem setPlain_Timeout (r : TemplateRecord) (v : Str) :
    setPlain r (strB "Timeout") v = { r with Timeout := v } := rfl

theorem setPlain_Username (r : TemplateRecord) (v : Str) :
    setPlain r (strB "Username") v = { r with Username := v } := rfl

theorem setPlain_WriteToFileBool (r : TemplateRecord) (v : Str) :
    setPlain r (strB "WriteToFileBool") v = { r with WriteToFileBool := v } :=
  rfl

theorem setPlain_WriteToFileLoc (r : TemplateRecord) (v : Str) :
    setPlain r (strB "WriteToFileLoc") v = { r with WriteToFileLoc := v } :=
  rfl

theorem setPlain_Option (r : TemplateRecord) (v : Str) :
    setPlain r (strB "Option") v = { r with OptionVal := v } := rfl

theorem setPlain_FirstArgument (r : TemplateRecord) (v : Str) :
    setPlain r (strB "FirstArgument") v = { r with FirstArgument := v } := rfl

theorem setPlain_SCPDest (r : TemplateRecord) (v : Str) :
    setPlain r (strB "SCPDest") v = { r with SCPDest := v } := rfl

theorem setPlain_SCPDirection (r : TemplateRecord) (v : Str) :
    setPlain r (strB "SCPDirection") v = { r with SCPDirection := v } := rfl

theorem setPlain_CommitCheck (r : TemplateRecord) (v : Str) :
    setPlain r (strB "CommitCheck") v = { r with CommitCheck := v } := rfl

theorem setPlain_CommitConfirmed (r : TemplateRecord) (v : Str) :
    setPlain r (strB "CommitConfirmed") v =
      { r with CommitConfirmed := v } := rfl

theorem setPlain_CommitConfirmedMin (r : TemplateRecord) (v : Str) :
    setPlain r (strB "CommitConfirmedMin") v =
      { r with CommitConfirmedMin := v } := rfl

theorem setPlain_CommitBlank (r : TemplateRecord) (v : Str) :
    setPlain r (strB "CommitBlank") v = { r with CommitBlank := v } := rfl

theorem setPlain_CommitAt (r : TemplateRecord) (v : Str) :
    setPlain r (strB "CommitAt") v = { r with CommitAt := v } := rfl

theorem setPlain_CommitAtTime (r : TemplateRecord) (v : Str) :
    setPlain r (strB "CommitAtTime") v = { r with CommitAtTime := v } := rfl

theorem setPlain_CommitComment (r : TemplateRecord) (v : Str) :
    setPlain r (strB "CommitComment") v = { r with CommitComment := v } := rfl

theorem setPlain_CommitCommentValue (r : TemplateRecord) (v : Str) :
    setPlain r (strB "CommitCommentValue") v =
      { r with CommitCommentValue := v } := rfl

theorem setPlain_CommitSynch (r : TemplateRecord) (v : Str) :
    setPlain r (strB "CommitSynch") v = { r with CommitSynch := v } := rfl

theorem setPlain_Format (r : TemplateRecord) (v : Str) :
    setPlain r (strB "Format") v = { r with Format := v } := rfl

theorem setPlain_DiffMode (r : TemplateRecord) (v : Str) :
    setPlain r (strB "DiffMode") v = { r with DiffMode := v } := rfl

/-! ### `opt_select` on a well-formed record -/

theorem opt_select_record_eq (r : TemplateRecord)
    (hopt : r.OptionVal ∈ helpKeys)
    (hcommit : r.OptionVal = strB "Set Command(s)" ∨
      (r.CommitCheck = strB "0" ∧ r.CommitConfirmed = strB "0" ∧
       r.CommitBlank = strB "0" ∧ r.CommitSynch = strB "0" ∧
       r.CommitAt = strB "0" ∧ r.CommitComment = strB "0")) :
    opt_select_record r = (r, true) := by
  have hne : r.OptionVal ≠ strB "------" := by
    simp only [helpKeys, List.mem_cons, List.not_mem_nil, or_false] at hopt
    rcases hopt with h|h|h|h|h|h|h|h|h <;> rw [h] <;> decide
  have hdec : decide (r.OptionVal ∈ helpKeys) = true := decide_eq_true hopt
  have hr1 : (if r.OptionVal ≠ strB "Set Command(s)" then deselectCommit r
      else r) = r := by
    rcases hcommit with hA | ⟨h1, h2, h3, h4, h5, h6⟩
    · rw [if_neg (fun hx => hx hA)]
    · have hds : deselectCommit r = r := by
        conv_rhs => rw [show r = { r with
          CommitCheck := r.CommitCheck, CommitConfirmed := r.CommitConfirmed,
          CommitBlank := r.CommitBlank, CommitSynch := r.CommitSynch,
          CommitAt := r.CommitAt, CommitComment := r.CommitComment }
          from rfl]
        rw [deselectCommit, h1, h2, h3, h4, h5, h6]
      rw [hds, ite_self]
  simp only [opt_select_record, hr1, if_neg hne, hdec]

/-! ### The template round-trip (C3) -/

theorem readlines_flatten_saveLines (lines : List (Str × Str))
    (h : ∀ kv ∈ lines, 10 ∉ kv.1 ∧ 10 ∉ kv.2) :
    readlines ((lines.map fun kv => saveLine kv.1 kv.2).flatten) =
      lines.map fun kv => saveLine kv.1 kv.2 := by
  induction lines with
  | nil => rfl
  | cons kv rest ih =>
    have hkv := h kv (List.mem_cons_self kv rest)
    rw [List.map_cons, List.flatten_cons,
      readlines_saveLine _ _ _ hkv.1 hkv.2,
      ih fun x hx => h x (List.mem_cons_of_mem kv hx)]

/-- C3 amended: saving and re-loading restores every field, provided each
field value contains no separator occurrence, no newline and no trailing
whitespace, the secret is a byte string, the option field is one of the
nine menu options, and (because loading re-runs the option-change
callback, which deselects the commit checkboxes for any option other
than `"Set Command(s)"`) either the option is `"Set Command(s)"` or the
six commit checkboxes are unchecked.  The `Password` field round-trips
through base64 to its original plaintext. -/
theorem template_roundtrip (r0 r : TemplateRecord)
    (hclean : cleanRecord r)
    (hpw : ∀ b ∈ r.Password, b < 256)
    (hopt : r.OptionVal ∈ helpKeys)
    (hcommit : r.OptionVal = strB "Set Command(s)" ∨
      (r.CommitCheck = strB "0" ∧ r.CommitConfirmed = strB "0" ∧
       r.CommitBlank = strB "0" ∧ r.CommitSynch = strB "0" ∧
       r.CommitAt = strB "0" ∧ r.CommitComment = strB "0")) :
    open_template r0 (save_template r) = ⟨r, []⟩ := by
  obtain ⟨hIP, hTO, hUN, hWB, hWL, hSM, hOP, hFA, hSD, hSDir, hCC, hCCf,
    hCCM, hCB, hCA, hCAT, hCCm, hCCV, hCS, hFo, hDM⟩ := hclean
  have h10 : ∀ kv ∈ templateKV r, 10 ∉ kv.1 ∧ 10 ∉ kv.2 := by
    intro kv hkv
    simp only [templateKV, List.mem_cons, List.not_mem_nil, or_false] at hkv
    rcases hkv with rfl | rfl | rfl | rfl | rfl | rfl | rfl | rfl | rfl |
      rfl | rfl | rfl | rfl | rfl | rfl | rfl | rfl | rfl | rfl | rfl |
      rfl | rfl
    · exact ⟨(by decide : (10:Nat) ∉ strB "IP"), hIP.1⟩
    · exact ⟨(by decide : (10:Nat) ∉ strB "Timeout"), hTO.1⟩
    · exact ⟨(by decide : (10:Nat) ∉ strB "Username"), hUN.1⟩
    · exact ⟨(by decide : (10:Nat) ∉ strB "Password"), b64encode_no10 _ hpw⟩
    · exact ⟨(by decide : (10:Nat) ∉ strB "WriteToFileBool"), hWB.1⟩
    · exact ⟨(by decide : (10:Nat) ∉ strB "WriteToFileLoc"), hWL.1⟩
    · exact ⟨(by decide : (10:Nat) ∉ strB "SingleOrMultipleFiles"), hSM.1⟩
    · exact ⟨(by decide : (10:Nat) ∉ strB "Option"), hOP.1⟩
    · exact ⟨(by decide : (10:Nat) ∉ strB "FirstArgument"), hFA.1⟩
    · exact ⟨(by decide : (10:Nat) ∉ strB "SCPDest"), hSD.1⟩
    · exact ⟨(by decide : (10:Nat) ∉ strB "SCPDirection"), hSDir.1⟩
    · exact ⟨(by decide : (10:Nat) ∉ strB "CommitCheck"), hCC.1⟩
    · exact ⟨(by decide : (10:Nat) ∉ strB "CommitConfirmed"), hCCf.1⟩
    · exact ⟨(by decide : (10:Nat) ∉ strB "CommitConfirmedMin"), hCCM.1⟩
    · exact ⟨(by decide : (10:Nat) ∉ strB "CommitBlank"), hCB.1⟩
    · exact ⟨(by decide : (10:Nat) ∉ strB "CommitAt"), hCA.1⟩
    · exact ⟨(by decide : (10:Nat) ∉ strB "CommitAtTime"), hCAT.1⟩
    · exact ⟨(by decide : (10:Nat) ∉ strB "CommitComment"), hCCm.1⟩
    · exact ⟨(by decide : (10:Nat) ∉ strB "CommitCommentValue"), hCCV.1⟩
    · exact ⟨(by decide : (10:Nat) ∉ strB "CommitSynch"), hCS.1⟩
    · exact ⟨(by decide : (10:Nat) ∉ strB "Format"), hFo.1⟩
    · exact ⟨(by decide : (10:Nat) ∉ strB "DiffMode"), hDM.1⟩
  have hlines : readlines (save_template r) =
      (templateKV r).map fun kv => saveLine kv.1 kv.2 :=
    readlines_flatten_saveLines (templateKV r) h10
  have hrun : runLines r0 (readlines (save_template r)) = .ok r := by
    rw [hlines]
    simp only [templateKV, List.map_cons, List.map_nil]
    rw [runLines_cons_some _ _ _ _ (parseLine_plain (strB "IP") r.IP
          (by decide) (by decide) (by decide) (by decide) hIP.2.1 hIP.2.2),
        runLines_cons_some _ _ _ _ (parseLine_plain (strB "Timeout") r.Timeout
          (by decide) (by decide) (by decide) (by decide) hTO.2.1 hTO.2.2),
        runLines_cons_some _ _ _ _ (parseLine_plain (strB "Username")
          r.Username
          (by decide) (by decide) (by decide) (by decide) hUN.2.1 hUN.2.2),
        runLines_cons_some _ _ _ _ (parseLine_password r.Password hpw),
        runLines_cons_some _ _ _ _ (parseLine_plain (strB "WriteToFileBool")
          r.WriteToFileBool
          (by decide) (by decide) (by decide) (by decide) hWB.2.1 hWB.2.2),
        runLines_cons_some _ _ _ _ (parseLine_plain (strB "WriteToFileLoc")
          r.WriteToFileLoc
          (by decide) (by decide) (by decide) (by decide) hWL.2.1 hWL.2.2),
        runLines_cons_some _ _ _ _ (parseLine_somf r.SingleOrMultipleFiles
          hSM.2.1 hSM.2.2),
        runLines_cons_some _ _ _ _ (parseLine_plain (strB "Option")
          r.OptionVal
          (by decide) (by decide) (by decide) (by decide) hOP.2.1 hOP.2.2),
        runLines_cons_some _ _ _ _ (parseLine_plain (strB "FirstArgument")
          r.FirstArgument
          (by decide) (by decide) (by decide) (by decide) hFA.2.1 hFA.2.2),
        runLines_cons_some _ _ _ _ (parseLine_plain (strB "SCPDest")
          r.SCPDest
          (by decide) (by decide) (by decide) (by decide) hSD.2.1 hSD.2.2),
        runLines_cons_some _ _ _ _ (parseLine_plain (strB "SCPDirection")
          r.SCPDirection
          (by decide) (by decide) (by decide) (by decide) hSDir.2.1
          hSDir.2.2),
        runLines_cons_some _ _ _ _ (parseLine_plain (strB "CommitCheck")
          r.CommitCheck
          (by decide) (by decide) (by decide) (by decide) hCC.2.1 hCC.2.2),
        runLines_cons_some _ _ _ _ (parseLine_plain (strB "CommitConfirmed")
          r.CommitConfirmed
          (by decide) (by decide) (by decide) (by decide) hCCf.2.1 hCCf.2.2),
        runLines_cons_some _ _ _ _ (parseLine_plain
          (strB "CommitConfirmedMin") r.CommitConfirmedMin
          (by decide) (by decide) (by decide) (by decide) hCCM.2.1 hCCM.2.2),
        runLines_cons_some _ _ _ _ (parseLine_plain (strB "CommitBlank")
          r.CommitBlank
          (by decide) (by decide) (by decide) (by decide) hCB.2.1 hCB.2.2),
        runLines_cons_some _ _ _ _ (parseLine_plain (strB "CommitAt")
          r.CommitAt
          (by decide) (by decide) (by decide) (by decide) hCA.2.1 hCA.2.2),
        runLines_cons_some _ _ _ _ (parseLine_plain (strB "CommitAtTime")
          r.CommitAtTime
          (by decide) (by decide) (by decide) (by decide) hCAT.2.1 hCAT.2.2),
        runLines_cons_some _ _ _ _ (parseLine_plain (strB "CommitComment")
          r.CommitComment
          (by decide) (by decide) (by decide) (by decide) hCCm.2.1 hCCm.2.2),
        runLines_cons_some _ _ _ _ (parseLine_plain
          (strB "CommitCommentValue") r.CommitCommentValue
          (by decide) (by decide) (by decide) (by decide) hCCV.2.1 hCCV.2.2),
        runLines_cons_some _ _ _ _ (parseLine_plain (strB "CommitSynch")
          r.CommitSynch
          (by decide) (by decide) (by decide) (by decide) hCS.2.1 hCS.2.2),
        runLines_cons_some _ _ _ _ (parseLine_plain (strB "Format")
          r.Format
          (by decide) (by decide) (by decide) (by decide) hFo.2.1 hFo.2.2),
        runLines_cons_some _ _ _ _ (parseLine_plain (strB "DiffMode")
          r.DiffMode
          (by decide) (by decide) (by decide) (by decide) hDM.2.1 hDM.2.2)]
    simp only [runLines, applyUpd, setPlain_IP, setPlain_Timeout,
      setPlain_Username, setPlain_WriteToFileBool, setPlain_WriteToFileLoc,
      setPlain_Option, setPlain_FirstArgument, setPlain_SCPDest,
      setPlain_SCPDirection, setPlain_CommitCheck, setPlain_CommitConfirmed,
      setPlain_CommitConfirmedMin, setPlain_CommitBlank, setPlain_CommitAt,
      setPlain_CommitAtTime, setPlain_CommitComment,
      setPlain_CommitCommentValue, setPlain_CommitSynch, setPlain_Format,
      setPlain_DiffMode]
  simp only [open_template, hrun, opt_select_record_eq r hopt hcommit]
  rfl

theorem template_roundtrip_witness :
    cleanRecord exampleRecord ∧
    (∀ b ∈ exampleRecord.Password, b < 256) ∧
    exampleRecord.OptionVal ∈ helpKeys ∧
    open_template blankRecord (save_template exampleRecord) =
      ⟨exampleRecord, []⟩ ∧
    (open_template blankRecord (save_template exampleRecord)).record.Password
      = strB "sw0rdfish" := by
  have h := template_roundtrip blankRecord exampleRecord (by decide)
    (by decide) (by decide)
    (Or.inr ⟨rfl, rfl, rfl, rfl, rfl, rfl⟩)
  exact ⟨by decide, by decide, by decide, h, by rw [h]; rfl⟩

/-- C3 counterexample: saving a record whose Username value ends in a
space and loading it back does not restore the field — `rstrip` (gui.py
819) removes the trailing space, so the claimed round-trip fails. -/
theorem template_roundtrip_counterexample :
    staleRecord.Username = strB "bob " ∧
    (open_template staleRecord (save_template staleRecord)).record.Username
      = strB "bob" ∧
    open_template staleRecord (save_template staleRecord)
      ≠ ⟨staleRecord, []⟩ := by
  refine ⟨by decide, by decide, ?_⟩
  intro h
  have := congrArg (fun x => x.record.Username) h
  simp only at this
  revert this
  decide

/-! ### Stopping at the first malformed line (C4) -/

theorem runLines_stops_at_bad (r : TemplateRecord) (pre post : List Str)
    (bad : Str) (hpre : ∀ l ∈ pre, (parseLine l).isSome)
    (hbad : parseLine bad = none) :
    runLines r (pre ++ bad :: post) =
      .error (pre.foldl applyParsedLine r) := by
  induction pre generalizing r with
  | nil => simp [runLines, hbad]
  | cons l pre ih =>
    have hl := hpre l (List.mem_cons_self l pre)
    obtain ⟨u, hu⟩ := Option.isSome_iff_exists.mp hl
    rw [List.cons_append, runLines_cons_some _ _ _ _ hu,
      ih _ fun x hx => hpre x (List.mem_cons_of_mem l hx), List.foldl_cons]
    simp [applyParsedLine, hu]

/-- C4 amended: on the first line that raises (malformed line,
unrecognized field name, or undecodable secret), `open_template` stops:
fields applied from earlier lines are retained, the remaining lines are
NOT applied, and the problem is reported exactly once. -/
theorem open_template_stops_at_first_bad_line (r : TemplateRecord)
    (content : Str) (pre post : List Str) (bad : Str)
    (hsplit : readlines content = pre ++ bad :: post)
    (hpre : ∀ l ∈ pre, (parseLine l).isSome)
    (hbad : parseLine bad = none) :
    open_template r content =
      ⟨pre.foldl applyParsedLine r, [.templateParseError]⟩ := by
  simp only [open_template, hsplit,
    runLines_stops_at_bad r pre post bad hpre hbad]

/-- C4 counterexample: with the malformed line first, none of the four
following well-formed lines is applied — the claim that loading
continues past the offending line fails on the code. -/
theorem open_template_skip_counterexample :
    open_template blankRecord badFirstContent =
      ⟨blankRecord, [.templateParseError]⟩ ∧
    strB "10.0.0.1" ≠ blankRecord.IP := by decide

theorem open_template_stops_witness :
    readlines badLastContent =
      [strB "IP:~:10.0.0.1\n", strB "Username:~:admin\n",
       strB "Timeout:~:120\n", strB "SCPDest:~:out.txt\n"] ++
      strB "BadLineWithoutSeparator\n" :: [] ∧
    (∀ l ∈ [strB "IP:~:10.0.0.1\n", strB "Username:~:admin\n",
       strB "Timeout:~:120\n", strB "SCPDest:~:out.txt\n"],
      (parseLine l).isSome) ∧
    parseLine (strB "BadLineWithoutSeparator\n") = none ∧
    open_template blankRecord badLastContent =
      ⟨[strB "IP:~:10.0.0.1\n", strB "Username:~:admin\n",
        strB "Timeout:~:120\n", strB "SCPDest:~:out.txt\n"].foldl
          applyParsedLine blankRecord, [.templateParseError]⟩ :=
  ⟨by decide, by decide, by decide,
   open_template_stops_at_first_bad_line blankRecord badLastContent
     [strB "IP:~:10.0.0.1\n", strB "Username:~:admin\n",
      strB "Timeout:~:120\n", strB "SCPDest:~:out.txt\n"] []
     (strB "BadLineWithoutSeparator\n")
     (by decide) (by decide) (by decide)⟩

/-! ### Write failures (C5) and read failures (C8) -/

/-- C5 (code bug): when the destination cannot be opened, the
error-reporting branch itself raises `UnboundLocalError` (it interpolates
the unbound local `output_file` instead of `filepath`), so an exception
does escape the save path, contradicting the claim. -/
theorem save_template_open_failure_raises (r : TemplateRecord)
    (filetype err : Str) :
    save_template_io r filetype err false = .error .unboundLocal := rfl

/-- C8: when the template file is missing or unreadable, the failure is
reported and every field keeps its prior value. -/
theorem open_template_read_failure_preserves_fields (r : TemplateRecord) :
    (open_template_io r none).record = r ∧
    (open_template_io r none).reports = [.loadIOError] := ⟨rfl, rfl⟩

/-! ### Single-job exclusion (C6) -/

/-- C6 (code bug): with a job running, the disabled Run Script button
drops a second click, but `Ctrl-R` and `File > Run Script` still invoke
`go` and start a second `WorkerThread` — the claimed mutual exclusion
holds only for the button. -/
theorem second_worker_thread_via_shortcut :
    (dispatch (dispatch (initialUI true) .goButtonPress)
      .goButtonPress).threadsStarted = 1 ∧
    (dispatch (dispatch (initialUI true) .goButtonPress)
      .ctrlR).threadsStarted = 2 ∧
    (dispatch (dispatch (initialUI true) .goButtonPress)
      .fileMenuRunScript).threadsStarted = 2 ∧
    (dispatch (initialUI true) .goButtonPress).threadAlive = true := by
  decide

/-! ### The commit-set argument bundle (C7) -/

/-- C7: with the Confirmed Minutes box checked and entry `"5"`, the
bundle carries `confirmed = 300`; with the box unchecked it carries
`None`; in both cases the bundle order is command text, check-only flag,
synchronize flag, comment, confirmed, at-time, blank flag. -/
theorem commit_set_confirmed_seconds (g : SetCommandInputs) :
    (g.commit_confirmed = true → g.commit_confirmed_min_entry = strB "5" →
      set_command_args g = some
        [PyArg.s (pyStrip g.option_entry), PyArg.b g.commit_check,
         PyArg.b g.commit_synch,
         if g.commit_comment then PyArg.s g.commit_comment_entry
         else PyArg.pyNone,
         PyArg.i 300,
         if g.commit_at then PyArg.s g.commit_at_entry else PyArg.pyNone,
         PyArg.b g.commit_blank]) ∧
    (g.commit_confirmed = false →
      set_command_args g = some
        [PyArg.s (pyStrip g.option_entry), PyArg.b g.commit_check,
         PyArg.b g.commit_synch,
         if g.commit_comment then PyArg.s g.commit_comment_entry
         else PyArg.pyNone,
         PyArg.pyNone,
         if g.commit_at then PyArg.s g.commit_at_entry else PyArg.pyNone,
         PyArg.b g.commit_blank]) := by
  constructor
  · intro hconf hfive
    simp only [set_command_args, hconf, hfive, if_true]
    rfl
  · intro hconf
    simp only [set_command_args, hconf]
    rfl

theorem commit_set_confirmed_seconds_witness :
    set_command_args
      { option_entry := strB "set system host-name r1",
        commit_check := false, commit_synch := false,
        commit_comment := false, commit_comment_entry := [],
        commit_confirmed := true, commit_confirmed_min_entry := strB "5",
        commit_at := false, commit_at_entry := [], commit_blank := false } =
      some [PyArg.s (strB "set system host-name r1"), PyArg.b false,
        PyArg.b false, PyArg.pyNone, PyArg.i 300, PyArg.pyNone,
        PyArg.b false] ∧
    set_command_args
      { option_entry := strB "set system host-name r1",
        commit_check := false, commit_synch := false,
        commit_comment := false, commit_comment_entry := [],
        commit_confirmed := false, commit_confirmed_min_entry := strB "5",
        commit_at := false, commit_at_entry := [], commit_blank := false } =
      some [PyArg.s (strB "set system host-name r1"), PyArg.b false,
        PyArg.b false, PyArg.pyNone, PyArg.pyNone, PyArg.pyNone,
        PyArg.b false] :=
  ⟨(commit_set_confirmed_seconds _).1 rfl rfl,
   (commit_set_confirmed_seconds _).2 rfl⟩

/-! ### Commit checkbox exclusion (C9) -/

/-- C9: a single checkbox click preserves the Check Only exclusion —
checking Check Only deselects the other five, and checking any of the
five deselects Check Only. -/
theorem commit_check_exclusion_preserved (s : CommitBoxes) (t : CheckType)
    (h : checkOnlyExclusion s) : checkOnlyExclusion (clickCommit t s) := by
  obtain ⟨b1, b2, b3, b4, b5, b6⟩ := s
  revert h
  cases t <;> cases b1 <;> cases b2 <;> cases b3 <;> cases b4 <;>
    cases b5 <;> cases b6 <;> decide

theorem commit_check_exclusion_witness :
    checkOnlyExclusion ⟨false, true, false, false, false, true⟩ ∧
    checkOnlyExclusion
      (clickCommit .check ⟨false, true, false, false, false, true⟩) ∧
    clickCommit .check ⟨false, true, false, false, false, true⟩ =
      ⟨true, false, false, false, false, false⟩ :=
  ⟨by decide,
   commit_check_exclusion_preserved ⟨false, true, false, false, false, true⟩
     .check (by decide),
   by decide⟩

end Jaidegui
